import Mathlib

/-!
Shallow embedding of the ms_products repository (category resolution,
attribute extraction, card building) and proofs of the specification
claims about it.

Conventions of the embedding:
* Python strings are Lean `String`s; all character-level work is done on
  `String.data` (`List Char`) so every operation reduces in the kernel.
* Python `str.lower`/`str.upper` are modelled for the alphabets the
  program uses (ASCII and Russian Cyrillic, including Ё/ё).
* Python dicts that preserve insertion order are modelled as association
  lists (`List (key × value)`); dict writes overwrite the existing key.
* Python float scores are modelled as exact rationals (`ℚ`); the claims
  proved here do not depend on floating-point rounding.
* Values read from `config.py` (which is referenced by the sources but is
  not part of them) are passed as explicit parameters.
* Network calls (national-catalog presets, remote category lookups) are
  modelled as explicit function parameters supplying their results.
-/

/-! ## String utilities (Python semantics) -/

/-- Python whitespace characters recognised by `str.strip` / `\s` for the
data this program handles. -/
def isPySpace (c : Char) : Bool :=
  c.toNat = 32 ∨ c.toNat = 9 ∨ c.toNat = 10 ∨ c.toNat = 13 ∨ c.toNat = 11 ∨ c.toNat = 12

/-- Python str.lower on one character: ASCII A–Z and Cyrillic А–Я/Ё. -/
def lowerChar (c : Char) : Char :=
  if 0x41 ≤ c.toNat ∧ c.toNat ≤ 0x5A then Char.ofNat (c.toNat + 32)
  else if c.toNat = 0x401 then Char.ofNat 0x451
  else if 0x410 ≤ c.toNat ∧ c.toNat ≤ 0x42F then Char.ofNat (c.toNat + 32)
  else c

/-- Python str.upper on one character: ASCII a–z and Cyrillic а–я/ё. -/
def upperChar (c : Char) : Char :=
  if 0x61 ≤ c.toNat ∧ c.toNat ≤ 0x7A then Char.ofNat (c.toNat - 32)
  else if c.toNat = 0x451 then Char.ofNat 0x401
  else if 0x430 ≤ c.toNat ∧ c.toNat ≤ 0x44F then Char.ofNat (c.toNat - 32)
  else c

/-- Python `str.lower`. -/
def lowerStr (s : String) : String := String.mk (s.data.map lowerChar)

/-- Python `str.upper`. -/
def upperStr (s : String) : String := String.mk (s.data.map upperChar)

/-- Python `str.strip()`. -/
def pyStrip (s : String) : String :=
  String.mk (((s.data.dropWhile isPySpace).reverse.dropWhile isPySpace).reverse)

/-- Python slice `s[:n]` (by characters). -/
def takeStr (n : Nat) (s : String) : String := String.mk (s.data.take n)

/-- Python `len(s)` (number of characters). -/
def pyLen (s : String) : Nat := s.data.length

/-- Contiguous-sublist test on char lists: `needle` occurs inside `hay`.
This is Python's `needle in hay` for strings. -/
def isSubL (needle : List Char) : List Char → Bool
  | [] => needle.isEmpty
  | c :: rest => needle.isPrefixOf (c :: rest) || isSubL needle rest

/-- Python `needle in hay` on strings. -/
def strIn (needle hay : String) : Bool := isSubL needle.data hay.data

/-- Python `s.endswith(suffix)`. -/
def endsWithStr (s suffix : String) : Bool := suffix.data.isSuffixOf s.data

/-- Lexicographic `<` on strings by code point (Python string comparison),
written so that it reduces in the kernel. -/
def listCharLt : List Char → List Char → Bool
  | [], [] => false
  | [], _ :: _ => true
  | _ :: _, [] => false
  | a :: as, b :: bs =>
    if a.toNat < b.toNat then true
    else if a.toNat = b.toNat then listCharLt as bs else false

/-- Comparison a ≤ b on strings by code point. -/
def strLeB (a b : String) : Bool := !(listCharLt b.data a.data)

/-- Insert into a sorted list, keeping earlier elements first on ties
(stable). -/
def insertLe {α : Type} (le : α → α → Bool) (a : α) : List α → List α
  | [] => [a]
  | b :: bs => if le a b then a :: b :: bs else b :: insertLe le a bs

/-- Stable sort by a boolean comparison; extensionally Python's stable
`sorted`/`list.sort` for the total preorders used here. -/
def sortByLe {α : Type} (le : α → α → Bool) : List α → List α
  | [] => []
  | a :: as => insertLe le a (sortByLe le as)

theorem mem_insertLe {α : Type} (le : α → α → Bool) (a x : α) (l : List α) :
    x ∈ insertLe le a l ↔ x = a ∨ x ∈ l := by
  induction l with
  | nil => simp [insertLe]
  | cons b bs ih =>
    simp only [insertLe]
    split
    · simp [List.mem_cons]
    · simp only [List.mem_cons, ih]
      tauto

theorem mem_sortByLe {α : Type} (le : α → α → Bool) (x : α) (l : List α) :
    x ∈ sortByLe le l ↔ x ∈ l := by
  induction l with
  | nil => simp [sortByLe]
  | cons a as ih =>
    simp only [sortByLe, mem_insertLe, List.mem_cons, ih]

/-! ## category_mapper.py -/

/-- Part of normalize_text: collapse a run of whitespace into one space
(`re.sub(r'\s+', ' ', ...)`), after separators have become spaces. -/
def collapseWs : List Char → List Char
  | [] => []
  | c :: rest =>
    if isPySpace c then ' ' :: collapseWsSkip rest else c :: collapseWs rest
where
  /-- Skip the rest of a whitespace run. -/
  collapseWsSkip : List Char → List Char
  | [] => []
  | c :: rest => if isPySpace c then collapseWsSkip rest else c :: collapseWs rest

/-- Model of re.sub(r'[-_/\\]', ' ', text). -/
def sepToSpace (c : Char) : Char :=
  if c = '-' ∨ c = '_' ∨ c = '/' ∨ c = '\\' then ' ' else c

/-- Python normalize_text(text): lower-case, strip, separators to spaces,
collapse whitespace runs. -/
def normalize_text (text : String) : String :=
  String.mk (collapseWs (((pyStrip (lowerStr text)).data).map sepToSpace))

/-- Python `str.split()` (split on whitespace, dropping empty pieces). -/
def splitWordsAux : List Char → List Char → List String
  | [], acc => if acc.isEmpty then [] else [String.mk acc.reverse]
  | c :: rest, acc =>
    if isPySpace c then
      if acc.isEmpty then splitWordsAux rest []
      else String.mk acc.reverse :: splitWordsAux rest []
    else splitWordsAux rest (c :: acc)

/-- Python `str.split()`. -/
def pySplit (s : String) : List String := splitWordsAux s.data []

/-- The one-character-dropping suffixes of the simple stemmer. -/
def stemSuf1 : List String := ["ы", "и", "а", "я", "ов", "ев"]

/-- The two-character-dropping suffixes of the simple stemmer. -/
def stemSuf2 : List String := ["ий", "ый", "ой", "ая", "яя", "ое", "ее"]

/-- The three-character-dropping suffixes of the simple stemmer. -/
def stemSuf3 : List String := ["ами", "ями", "ках", "ьях"]

/-- Drop the last `n` characters of a string (`s[:-n]`). -/
def dropLastStr (n : Nat) (s : String) : String :=
  String.mk (s.data.take (s.data.length - n))

/-- Stemmed variants added for one token (`len(token) > 3` only). -/
def stemsOf (token : String) : List String :=
  if pyLen token > 3 then
    (if stemSuf1.any (endsWithStr token) then [dropLastStr 1 token] else []) ++
    (if stemSuf2.any (endsWithStr token) then [dropLastStr 2 token] else []) ++
    (if stemSuf3.any (endsWithStr token) then [dropLastStr 3 token] else [])
  else []

/-- Function tokenize(text): the word set plus stemmed variants.  A Python `set`
is modelled as a duplicate-free list; only order-independent observations
of it are made below. -/
def tokenize (text : String) : List String :=
  let words := pySplit (normalize_text text)
  (words ++ words.flatMap stemsOf).dedup

/-- Test that ' '.join(tokens) contains kw — for the space-free keywords used by
the scorer this is exactly: some token contains `kw`. -/
def queryHas (queryTokens : List String) (kw : String) : Bool :=
  queryTokens.any (fun t => strIn kw t)

/-- Function calculate_match_score(query_tokens, category_name, cat_id); Python
float arithmetic is modelled with exact rationals. -/
def calculate_match_score (queryTokens : List String) (category_name : String)
    (cat_id : Nat) : ℚ :=
  let categoryTokens := tokenize category_name
  let exact_matches : ℚ := (queryTokens.filter (fun t => t ∈ categoryTokens)).length
  let half_matches : ℚ :=
    ((queryTokens.flatMap (fun q => categoryTokens.map (fun c => (q, c)))).filter
      (fun p => pyLen p.1 ≥ 3 ∧ pyLen p.2 ≥ 3 ∧
        (strIn p.1 p.2 || strIn p.2 p.1))).length * (1/2)
  let total_score := exact_matches + half_matches
  let category_lower := lowerStr category_name
  let total_score :=
    if queryHas queryTokens "брюк" ∧ strIn "юбк" category_lower then
      total_score * (3/10) else total_score
  let total_score :=
    if cat_id = 30683 ∧ queryHas queryTokens "брюк" then total_score * 2
    else if cat_id = 30685 ∧ queryHas queryTokens "юбк" ∧
        ¬ queryHas queryTokens "брюк" then total_score * 2
    else if cat_id = 238944 ∧
        (queryHas queryTokens "блуз" ∨ queryHas queryTokens "блуж") then total_score * 3
    else if cat_id = 30686 ∧
        (queryHas queryTokens "блуз" ∨ queryHas queryTokens "блуж") then total_score * (1/2)
    else total_score
  if queryTokens.length > 0 then total_score / queryTokens.length else 0

/-- The hardcoded deny-list of inactive categories. -/
def INACTIVE_CATEGORIES : List Nat := [30686]

/-- One candidate dict `{cat_id: name}` of the mapping table, as an
insertion-ordered association list. -/
abbrev CatDict := List (Nat × String)

/-- Python `a or b` where `a` is an optional dict and empty dicts are
falsy. -/
def pyOrDict (o : Option CatDict) (d : CatDict) : CatDict :=
  match o with
  | some x => if x.isEmpty then d else x
  | none => d

/-- Function _mapping_for(tnved): full code first, then the 4-digit group. -/
def mapping_for (M : List (String × CatDict)) (tnved : String) : CatDict :=
  pyOrDict (List.lookup tnved M) (pyOrDict (List.lookup (takeStr 4 tnved) M) [])

/-- Function _first_normal_or_any(cats). -/
def first_normal_or_any (lowPriority : List Nat) (cats : CatDict) : Option Nat :=
  match cats.find? (fun p => !(lowPriority.contains p.1) && !(INACTIVE_CATEGORIES.contains p.1)) with
  | some p => some p.1
  | none =>
    match cats.find? (fun p => !(INACTIVE_CATEGORIES.contains p.1)) with
    | some p => some p.1
    | none =>
      match cats with
      | p :: _ => some p.1
      | [] => none

/-- The scored candidates (score > 0 only), keeping the candidate dict's
iteration order. -/
def scored_of (active : CatDict) (query_tokens : List String) :
    List (Nat × String × ℚ) :=
  active.filterMap (fun p =>
    let score := calculate_match_score query_tokens p.2 p.1
    if 0 < score then some (p.1, p.2, score) else none)

/-- The scored candidates, stably sorted by descending score
(Python list.sort with key and reverse=True). -/
def sorted_of (active : CatDict) (query_tokens : List String) :
    List (Nat × String × ℚ) :=
  sortByLe (fun a b => decide (b.2.2 ≤ a.2.2)) (scored_of active query_tokens)

/-- The selection logic of choose_category once the active candidate dict
is fixed. -/
def choose_from_active (lowPriority : List Nat) (active : CatDict)
    (product_type : Option String) : Option Nat :=
  match product_type with
  | none => first_normal_or_any lowPriority active
  | some pt =>
    if pt = "" then first_normal_or_any lowPriority active
    else
      match (sorted_of active (tokenize pt)).find?
          (fun t => !(lowPriority.contains t.1) && decide (0 < t.2.2)) with
      | some t => some t.1
      | none =>
        match sorted_of active (tokenize pt) with
        | t :: _ =>
          if 0 < t.2.2 then some t.1 else first_normal_or_any lowPriority active
        | [] => first_normal_or_any lowPriority active

/-- The inactive-filter step of choose_category: drop inactive candidates,
but fall back to the original dict when that would empty it. -/
def active_of (cats : CatDict) : CatDict :=
  let filtered := cats.filter (fun p => !(INACTIVE_CATEGORIES.contains p.1))
  if filtered.isEmpty then cats else filtered

/-- Function choose_category(tnved, product_type).  The mapping table and
the LOW_PRIORITY_CATS set come from configuration outside the sources and
are passed in. -/
def choose_category (M : List (String × CatDict)) (lowPriority : List Nat)
    (tnved : String) (product_type : Option String) : Option Nat :=
  if (mapping_for M tnved).isEmpty then none
  else choose_from_active lowPriority (active_of (mapping_for M tnved)) product_type

/-! ## nk_api.py -/

/-- Python truthy `a or b` on strings ('' is falsy). -/
def pyOrStr (a b : String) : String := if a = "" then b else a

/-- Function find_similar_values(value, preset, threshold).  The Python
set argument is modelled as a list; the result is sorted, so it does not
depend on the set's iteration order. -/
def find_similar_values (value : String) (preset : List String) (threshold : ℚ) :
    List String :=
  if value = "" ∨ preset.isEmpty then []
  else
    let val_low := lowerStr value
    let similars := preset.filter (fun p =>
      strIn val_low (lowerStr p) || strIn (lowerStr p) val_low)
    (sortByLe strLeB similars).take 5

/-- The fields of the extracted product-data dict that the card builder
and gender logic read (absent keys are the empty string). -/
structure ProductData where
  name : String := ""
  article : String := ""
  composition : String := ""
  permit_docs : String := ""
  brand_nk : String := ""
  color : String := ""
  size : String := ""
  product_type : String := ""
  tnved : String := ""
  target_gender : String := ""
deriving DecidableEq

/-- The name-based fallback of determine_gender. -/
def gender_from_name (name : String) : Option String :=
  if strIn "мужск" name || strIn "men" name || strIn "male" name then
    some "МУЖСКОЙ"
  else if strIn "женск" name || strIn "women" name || strIn "female" name then
    some "ЖЕНСКИЙ"
  else if strIn "детск" name || strIn "kid" name || strIn "child" name then
    some "БЕЗ УКАЗАНИЯ ПОЛА"
  else if name ≠ "" then some "УНИВЕРСАЛЬНЫЙ (УНИСЕКС)" else none

/-- Function determine_gender(product_data): explicit target-gender
attribute first; on no keyword match (or empty attribute) fall through to
the product name. -/
def determine_gender (pd : ProductData) : Option String :=
  let name := lowerStr pd.name
  let target_gender := lowerStr pd.target_gender
  let fromTarget : Option String :=
    if target_gender ≠ "" then
      if strIn "женск" target_gender || strIn "women" target_gender ||
          strIn "female" target_gender then some "ЖЕНСКИЙ"
      else if strIn "мужск" target_gender || strIn "men" target_gender ||
          strIn "male" target_gender then some "МУЖСКОЙ"
      else if strIn "детск" target_gender || strIn "kid" target_gender ||
          strIn "child" target_gender then some "БЕЗ УКАЗАНИЯ ПОЛА"
      else if strIn "унисекс" target_gender || strIn "универсал" target_gender then
        some "УНИВЕРСАЛЬНЫЙ (УНИСЕКС)"
      else none
    else none
  match fromTarget with
  | some g => some g
  | none => gender_from_name name

/-- One entry of the card's good_attrs list. -/
structure NKAttr where
  attr_id : Nat
  attr_value : String
  attr_value_type : Option String := none
deriving DecidableEq

/-- The submission card assembled by create_card_data. -/
structure NKCard where
  is_tech_gtin : Bool
  tnved : String
  brand : String
  good_name : String
  moderation : Nat
  categories : List Nat
  good_attrs : List NKAttr
deriving DecidableEq

/-- Function create_card_data(product_data, cat_id).  The two
network-backed resolvers (determine_category_by_product_type and
determine_category_for_tnved, which both return a plain int) and the
configured DEFAULT_NK_CATEGORY are passed as parameters; the int value 0
models Python's falsy "no category yet". -/
def create_card_data (resolveByType : String → String → Nat)
    (resolveByTnved : String → Nat) (defaultCat : Nat)
    (pd : ProductData) (catId? : Option Nat) : NKCard :=
  let cat_id : Nat :=
    match catId? with
    | some c => c
    | none =>
      let tnved := pyStrip pd.tnved
      let ptype := pyStrip pd.product_type
      let name := lowerStr (pyStrip pd.name)
      let c1 : Nat := if tnved ≠ "" ∧ ptype ≠ "" then resolveByType tnved ptype else 0
      let c2 : Nat :=
        if c1 = 0 ∧ tnved ≠ "" ∧ name ≠ "" then
          if strIn "брюки" name ∨ strIn "брюк" name ∨ strIn "штаны" name then
            resolveByType tnved "брюки"
          else if strIn "платье" name then resolveByType tnved "платья"
          else if strIn "блузка" name ∨ strIn "блуза" name then resolveByType tnved "блузки"
          else if strIn "юбка" name then resolveByType tnved "юбки"
          else if strIn "куртка" name ∨ strIn "куртк" name then resolveByType tnved "куртки"
          else if strIn "джемпер" name ∨ strIn "свитер" name then resolveByType tnved "джемперы"
          else 0
        else c1
      let c3 : Nat := if c2 = 0 ∧ tnved ≠ "" then resolveByTnved tnved else c2
      let c4 : Nat := if c3 = 0 ∧ ptype ≠ "" then resolveByType "" ptype else c3
      if c4 = 0 then defaultCat else c4
  let tnved_for_card :=
    if ¬ (cat_id = 214943 ∨ cat_id = 215009) then
      if pyLen pd.tnved > 4 then takeStr 4 pd.tnved else pd.tnved
    else pd.tnved
  let attrs : List NKAttr :=
    [⟨2630, "RU", none⟩, ⟨2478, pd.name, none⟩,
     ⟨2504, pyOrStr pd.brand_nk "БрендОдежды", none⟩] ++
    (if pd.tnved ≠ "" then
      [⟨3959, takeStr 4 pd.tnved, none⟩] ++
      (if pyLen pd.tnved = 10 then [⟨13933, pd.tnved, none⟩] else [])
     else []) ++
    (if pd.product_type ≠ "" then [⟨12, upperStr pd.product_type, none⟩] else []) ++
    (if pd.color ≠ "" then [⟨36, upperStr pd.color, none⟩] else []) ++
    (if pd.size ≠ "" then [⟨35, pd.size, some "МЕЖДУНАРОДНЫЙ"⟩] else []) ++
    (if pd.composition ≠ "" then [⟨2483, pd.composition, none⟩] else []) ++
    [⟨13836, "ТР ТС 017/2011 \"О безопасности продукции легкой промышленности\"", none⟩] ++
    (if pd.article ≠ "" then [⟨13914, pd.article, some "Артикул"⟩] else []) ++
    (match determine_gender pd with | some g => [⟨14013, g, none⟩] | none => []) ++
    (if pd.permit_docs ≠ "" then [⟨23557, pd.permit_docs, none⟩] else [])
  { is_tech_gtin := true
    tnved := tnved_for_card
    brand := pyOrStr pd.brand_nk "БрендОдежды"
    good_name := pd.name
    moderation := 0
    categories := [cat_id]
    good_attrs := attrs }

/-- Function validate_color(color_value); the memoized network preset is a
parameter. -/
def validate_color (preset : List String) (color_value : String) :
    Bool × List String :=
  if color_value = "" then (false, [])
  else (preset.contains (upperStr color_value), preset)

/-- Function validate_product_kind(kind_value, cat_id); the memoized
per-category network preset is a parameter, and cat_id 0 models a falsy
category id. -/
def validate_product_kind (kindPreset : Nat → List String)
    (kind_value : String) (cat_id : Nat) : Bool × List String :=
  if kind_value = "" ∨ cat_id = 0 then (false, [])
  else ((kindPreset cat_id).contains (upperStr kind_value), kindPreset cat_id)

/-! ## app.py — raw inventory data model -/

/-- Shape of a raw attribute/characteristic value from the inventory
system: absent/None, a string, a boolean, or a reference object (a
non-empty dict carrying an optional display name and an optional
cat_id, 0 when absent). -/
inductive AVal where
  | vnone
  | vstr (s : String)
  | vbool (b : Bool)
  | vobj (name : String) (cat_id : Nat)
deriving DecidableEq

/-- Python truthiness of a raw value (reference dicts are non-empty,
hence truthy). -/
def pyTruthy : AVal → Bool
  | .vnone => false
  | .vstr s => s ≠ ""
  | .vbool b => b
  | .vobj _ _ => true

/-- Python str() of a raw value (only reached on truthy values). -/
def pyStr : AVal → String
  | .vnone => "None"
  | .vstr s => s
  | .vbool b => if b then "True" else "False"
  | .vobj n _ => n

/-- The attribute-loop coercion: reference dict to its display name,
boolean to the localized Да/Нет token, then str(...) if truthy else ''. -/
def coerceAttrVal : AVal → String
  | .vnone => ""
  | .vstr s => s
  | .vbool b => if b then "Да" else "Нет"
  | .vobj n _ => n

/-- The characteristics-loop coercion: only reference dicts are replaced
by their display name. -/
def charCoerce : AVal → AVal
  | .vobj n _ => .vstr n
  | v => v

/-- Python `a or b` on raw values. -/
def pyOrVal (a b : AVal) : AVal := if pyTruthy a then a else b

/-- One custom attribute of an inventory record (the dict keys the code
reads; absent keys are defaults). -/
structure MSAttr where
  name : String := ""
  attr_name : String := ""
  attr_id : Option Nat := none
  value : AVal := .vnone
  attr_value : AVal := .vnone
deriving DecidableEq

/-- One characteristic of a variant. -/
structure MSChar where
  name : String := ""
  value : AVal := .vnone
deriving DecidableEq

/-- One raw inventory record (CatalogItem), with the fields the extractor
reads.  Category references are their optional cat_id. -/
structure MSItem where
  meta_type : String := ""
  name : String := ""
  article : String := ""
  tnved : Option String := none
  attributes : List MSAttr := []
  characteristics : List MSChar := []
  categories : List (Option Nat) := []
deriving DecidableEq

/-- Modelled from the spec: config.py is referenced by the sources but is
not among them.  It supplies the custom-attribute display names
(CUSTOM_ATTRIBUTES), the characteristic keyword synonyms
(CHARACTERISTICS), the set of categories requiring the 10-digit code
(CATEGORIES_WITH_FULL_TNVED) and the detailed-tariff attribute id
(TNVED_DETAILED_ATTR_ID); all are passed as parameters. -/
structure AppConfig where
  composition : String
  permit_docs : String
  brand_nk : String
  product_type : String
  color : String
  size : String
  color_keywords : List String
  size_keywords : List String
  full_tnved_cats : List Nat
  tnved_detailed_attr : Nat
deriving DecidableEq

/-- Build the current_attributes / parent_attributes dict: name mapped to
the coerced value, later entries overwriting earlier ones. -/
def attrsMap (attrs : List MSAttr) (n : String) : Option String :=
  (attrs.reverse.find? (fun a => a.name = n)).map (fun a => coerceAttrVal a.value)

/-- The `if key in cur and cur[key]: ... elif key in par: ... else ''`
resolution pattern used for the plain inherited fields. -/
def pickAttr (cur par : String → Option String) (key : String) : String :=
  match cur key with
  | some v => if v ≠ "" then v else (par key).getD ""
  | none => (par key).getD ""

/-- The `if not v and key in m: v = m[key]` fallback step. -/
def fbAttr (v : String) (o : Option String) : String :=
  if v ≠ "" then v else o.getD ""

/-- First characteristic whose lowered name contains one of the keyword
synonyms and whose value is truthy, as str(...). -/
def charPick (chars : List MSChar) (keywords : List String) : String :=
  match chars.find? (fun ch =>
    keywords.any (fun kw => strIn kw (lowerStr ch.name)) &&
    pyTruthy (charCoerce ch.value)) with
  | some ch => pyStr (charCoerce ch.value)
  | none => ""

/-- A tnved-ish raw value is usable when truthy and not the literal
string 'None'. -/
def tnvedOk (v : AVal) : Bool :=
  pyTruthy v && (match v with | .vstr s => s ≠ "None" | _ => true)

/-- Python `item.get('tnved') or (parent.get('tnved') if parent else None)`. -/
def pyOrOptStr (a b : Option String) : Option String :=
  match a with
  | some s => if s ≠ "" then some s else b
  | none => b

/-- Method extract_tnved(item, parent_item): category-driven choice
between the detailed 10-digit attribute and the 4-digit group sources. -/
def extract_tnved (cfg : AppConfig) (item : MSItem) (parent? : Option MSItem) :
    String :=
  let all_attrs := item.attributes ++
    (match parent? with
     | some p => if p ≠ item then p.attributes else []
     | none => [])
  let categories : List (Option Nat) :=
    item.categories ++
    (match parent? with | some p => p.categories | none => []) ++
    all_attrs.filterMap (fun a =>
      if a.attr_name = "Категория" ∨ a.name = "Категория" then
        match pyOrVal a.value a.attr_value with
        | .vobj _ cid => if cid ≠ 0 then some (some cid) else none
        | _ => none
      else none)
  let requires_full := categories.any (fun c? =>
    match c? with
    | some c => cfg.full_tnved_cats.contains c
    | none => false)
  if requires_full then
    match all_attrs.find? (fun a =>
      a.attr_id = some cfg.tnved_detailed_attr &&
      tnvedOk (pyOrVal a.value a.attr_value)) with
    | some a => pyStr (pyOrVal a.value a.attr_value)
    | none => ""
  else
    let tnved_4 := pyOrOptStr item.tnved
      (match parent? with | some p => p.tnved | none => none)
    match tnved_4 with
    | some s =>
      if s ≠ "" then s
      else
        match all_attrs.find? (fun a =>
          a.attr_id = some 3959 && tnvedOk (pyOrVal a.value a.attr_value)) with
        | some a => pyStr (pyOrVal a.value a.attr_value)
        | none => ""
    | none =>
      match all_attrs.find? (fun a =>
        a.attr_id = some 3959 && tnvedOk (pyOrVal a.value a.attr_value)) with
      | some a => pyStr (pyOrVal a.value a.attr_value)
      | none => ""

/-- The record produced by extract_item_data_with_inheritance. -/
structure ExtractedData where
  name : String := ""
  article : String := ""
  composition : String := ""
  permit_docs : String := ""
  brand_nk : String := ""
  color : String := ""
  size : String := ""
  product_type : String := ""
  tnved : String := ""
  target_gender : String := ""
  size_type : String := ""
  item_type : String := ""
  color_valid : Bool := false
  color_suggestions : List String := []
  product_type_valid : Bool := false
  product_type_suggestions : List String := []
deriving DecidableEq

/-- The extraction-and-inheritance phase of
extract_item_data_with_inheritance, before the sentinel cleanup. -/
def extract_raw (cfg : AppConfig) (item : MSItem) (parentProduct : Option MSItem) :
    ExtractedData :=
  let item_type := item.meta_type
  let parent_item : Option MSItem :=
    if item_type = "variant" ∧ parentProduct.isSome then parentProduct
    else if item_type = "product" then some item
    else none
  let cur := attrsMap item.attributes
  let par : String → Option String :=
    match parent_item with
    | some p => if p ≠ item then attrsMap p.attributes else fun _ => none
    | none => fun _ => none
  let article0 := item.article
  let article1 :=
    if article0 = "" then
      match parent_item with
      | some p => p.article
      | none => article0
    else article0
  { name := item.name
    article := article1
    composition := pickAttr cur par cfg.composition
    permit_docs := pickAttr cur par cfg.permit_docs
    brand_nk := pickAttr cur par cfg.brand_nk
    product_type := pickAttr cur par cfg.product_type
    tnved := extract_tnved cfg item parent_item
    color := fbAttr (fbAttr (charPick item.characteristics cfg.color_keywords)
      (cur cfg.color)) (par cfg.color)
    size := fbAttr (fbAttr (charPick item.characteristics cfg.size_keywords)
      (cur cfg.size)) (par cfg.size)
    target_gender := pickAttr cur par "Целевой пол"
    size_type := pickAttr cur par "Вид размера"
    item_type := item_type }

/-- The final sentinel cleanup: a recognized "empty" token is cleared to
the canonical empty string. -/
def cleanField (s : String) : String :=
  if s = "None" ∨ s = "" ∨ s = "nan" ∨ s = "Нет" then "" else s

/-- The cleanup pass over the ten listed keys (brand_nk and item_type are
not in the list). -/
def clean_data (d : ExtractedData) : ExtractedData :=
  { d with
    name := cleanField d.name
    article := cleanField d.article
    composition := cleanField d.composition
    permit_docs := cleanField d.permit_docs
    color := cleanField d.color
    size := cleanField d.size
    product_type := cleanField d.product_type
    tnved := cleanField d.tnved
    size_type := cleanField d.size_type
    target_gender := cleanField d.target_gender }

/-- The validation tail of extract_item_data_with_inheritance; the color
preset, the per-category kind preset and determine_category_for_tnved are
network-backed and passed as parameters. -/
def validate_color_step (colorPreset : List String) (d : ExtractedData) :
    ExtractedData :=
  if d.color ≠ "" then
    let r := validate_color colorPreset d.color
    { d with
      color_valid := r.1
      color_suggestions :=
        if ¬ r.1 then find_similar_values d.color r.2 (6/10) else d.color_suggestions }
  else d

/-- The product-kind half of the validation tail. -/
def validate_kind_step (kindPreset : Nat → List String)
    (resolveTnved : String → Nat) (d : ExtractedData) : ExtractedData :=
  if d.product_type ≠ "" ∧ d.tnved ≠ "" then
    let cat_id := resolveTnved d.tnved
    let r := validate_product_kind kindPreset d.product_type cat_id
    { d with
      product_type_valid := r.1
      product_type_suggestions :=
        if ¬ r.1 then find_similar_values d.product_type r.2 (6/10)
        else d.product_type_suggestions }
  else if d.product_type ≠ "" then
    let r := validate_product_kind kindPreset d.product_type 31326
    { d with
      product_type_valid := r.1
      product_type_suggestions :=
        if ¬ r.1 then find_similar_values d.product_type r.2 (6/10)
        else d.product_type_suggestions }
  else d

/-- The whole validation tail: color first, then product kind. -/
def validate_step (colorPreset : List String) (kindPreset : Nat → List String)
    (resolveTnved : String → Nat) (d : ExtractedData) : ExtractedData :=
  validate_kind_step kindPreset resolveTnved (validate_color_step colorPreset d)

/-- Method extract_item_data_with_inheritance(item): extraction with
inheritance, sentinel cleanup, then validation. -/
def extract_item_data_with_inheritance (cfg : AppConfig)
    (colorPreset : List String) (kindPreset : Nat → List String)
    (resolveTnved : String → Nat) (item : MSItem)
    (parentProduct : Option MSItem) : ExtractedData :=
  validate_step colorPreset kindPreset resolveTnved
    (clean_data (extract_raw cfg item parentProduct))

/-- Function apply_user_changes(product_data, user_changes).  The product
dict is modelled as a total map from field name to string (absent keys are
''), the user-changes dict as an insertion-ordered key/value list, and the
applied-changes dict as a list built in iteration order. -/
def apply_user_changes (product_data : String → String)
    (user_changes : List (String × String)) :
    (String → String) × List (String × String) :=
  if user_changes.isEmpty then (product_data, [])
  else
    user_changes.foldl (fun acc fv =>
      if (fv.1 = "color" ∨ fv.1 = "product_type" ∨ fv.1 = "size") ∧ fv.2 ≠ "" then
        (fun k => if k = fv.1 then fv.2 else acc.1 k,
         acc.2 ++ [(fv.1, acc.1 fv.1 ++ " → " ++ fv.2)])
      else acc) (product_data, [])

/-! ## Helper lemmas -/

theorem isPrefixOf_iff_exists (n : List Char) :
    ∀ h : List Char, n.isPrefixOf h = true ↔ ∃ t, h = n ++ t := by
  induction n with
  | nil => intro h; simp [List.isPrefixOf]
  | cons a as ih =>
    intro h
    cases h with
    | nil => simp [List.isPrefixOf]
    | cons b bs =>
      simp only [List.isPrefixOf, Bool.and_eq_true, beq_iff_eq, ih, List.cons_append,
        List.cons.injEq]
      constructor
      · rintro ⟨hab, t, ht⟩; exact ⟨t, hab.symm, ht⟩
      · rintro ⟨t, hab, ht⟩; exact ⟨hab.symm, t, ht⟩

theorem isSubL_iff_exists (n : List Char) :
    ∀ h : List Char, isSubL n h = true ↔ ∃ s t, h = s ++ n ++ t := by
  intro h
  induction h with
  | nil =>
    simp only [isSubL, List.isEmpty_iff]
    constructor
    · rintro rfl; exact ⟨[], [], rfl⟩
    · rintro ⟨s, t, ht⟩
      rcases List.append_eq_nil.mp (List.append_eq_nil.mp ht.symm).1 with ⟨_, h2⟩
      exact h2
  | cons c rest ih =>
    simp only [isSubL, Bool.or_eq_true, isPrefixOf_iff_exists, ih]
    constructor
    · rintro (⟨t, ht⟩ | ⟨s, t, ht⟩)
      · exact ⟨[], t, by simpa using ht⟩
      · exact ⟨c :: s, t, by simp [ht]⟩
    · rintro ⟨s, t, ht⟩
      cases s with
      | nil => exact Or.inl ⟨t, by simpa using ht⟩
      | cons x xs =>
        rcases List.cons.injEq .. ▸ ht with ⟨rfl, hrest⟩
        exact Or.inr ⟨xs, t, by simpa using hrest⟩

theorem isSubL_trans {a b c : List Char} (hab : isSubL a b = true)
    (hbc : isSubL b c = true) : isSubL a c = true := by
  rw [isSubL_iff_exists] at hab hbc ⊢
  obtain ⟨s, t, rfl⟩ := hab
  obtain ⟨u, v, rfl⟩ := hbc
  exact ⟨u ++ s, t ++ v, by simp⟩

theorem strIn_trans {a b c : String} (hab : strIn a b = true)
    (hbc : strIn b c = true) : strIn a c = true :=
  isSubL_trans hab hbc

theorem lowerStr_eq_empty_iff (s : String) : lowerStr s = "" ↔ s = "" := by
  constructor
  · intro h
    have hd : s.data.map lowerChar = ([] : List Char) := congrArg String.data h
    exact String.ext (by simpa using hd)
  · rintro rfl; rfl

theorem lowerStr_empty : lowerStr "" = "" := rfl

/-! ## Claim C2 -/

/-- C2: a 10-digit tariff code absent from the mapping table as a full key
whose 4-digit prefix is present as a group key resolves, through the
candidate lookup, to exactly the candidate set stored under the group
key. -/
theorem c2_group_key_fallback (M : List (String × CatDict)) (tnved : String)
    (m : CatDict) (h10 : pyLen tnved = 10)
    (habs : List.lookup tnved M = none)
    (hpre : List.lookup (takeStr 4 tnved) M = some m) :
    mapping_for M tnved = m := by
  unfold mapping_for
  rw [habs, hpre]
  show pyOrDict none (pyOrDict (some m) []) = m
  by_cases hm : m.isEmpty
  · simp only [pyOrDict, if_pos hm]
    exact (List.isEmpty_iff.mp hm).symm
  · simp only [pyOrDict, if_neg hm]

/-- Witness for C2 at a concrete table and code. -/
theorem c2_group_key_fallback_witness :
    pyLen "6204631800" = 10 ∧
      mapping_for [("6204", [(30683, "Брюки")])] "6204631800" = [(30683, "Брюки")] :=
  ⟨by decide,
    c2_group_key_fallback _ _ _ (by decide) (by decide) (by decide)⟩

/-! ## Claim C7 -/

/-- C7: the threshold argument of find_similar_values has no effect on the
returned list. -/
theorem c7_threshold_has_no_effect (value : String) (preset : List String)
    (t1 t2 : ℚ) :
    find_similar_values value preset t1 = find_similar_values value preset t2 := rfl

/-! ## Claim C5 -/

/-- C5 counterexample: on value КРАСНЫЙ, vocabulary
{КРАСНЫЙ, СИНИЙ, КРАСНОВАТЫЙ} and threshold 0.6, find_similar_values does
not return [КРАСНОВАТЫЙ, КРАСНЫЙ] — красный is not a contiguous substring
of красноватый in either direction, so КРАСНОВАТЫЙ is filtered out. -/
theorem c5_similar_counterexample :
    find_similar_values "КРАСНЫЙ" ["КРАСНЫЙ", "СИНИЙ", "КРАСНОВАТЫЙ"] (6/10) ≠
      ["КРАСНОВАТЫЙ", "КРАСНЫЙ"] := by decide

/-- C5 amended: the call returns exactly [КРАСНЫЙ]. -/
theorem c5_similar_amended :
    find_similar_values "КРАСНЫЙ" ["КРАСНЫЙ", "СИНИЙ", "КРАСНОВАТЫЙ"] (6/10) =
      ["КРАСНЫЙ"] := by decide

/-! ## Claim C8 -/

/-- The gender keywords scanned by the name fallback of
determine_gender. -/
def genderKeywords : List String :=
  ["мужск", "men", "male", "женск", "women", "female", "детск", "kid", "child"]

/-- C8: with no explicit target gender, the name "Платье женское" yields
ЖЕНСКИЙ; a non-empty name containing no gender keyword yields
УНИВЕРСАЛЬНЫЙ (УНИСЕКС); an empty name yields no gender at all. -/
theorem c8_gender_fallback (pd : ProductData) :
    (pd.name = "Платье женское" → pd.target_gender = "" →
      determine_gender pd = some "ЖЕНСКИЙ") ∧
    (pd.target_gender = "" → pd.name ≠ "" →
      (∀ kw ∈ genderKeywords, strIn kw (lowerStr pd.name) = false) →
      determine_gender pd = some "УНИВЕРСАЛЬНЫЙ (УНИСЕКС)") ∧
    (pd.target_gender = "" → pd.name = "" → determine_gender pd = none) := by
  refine ⟨?_, ?_, ?_⟩
  · intro h1 h2
    simp only [determine_gender, gender_from_name, h1, h2]
    decide
  · intro h2 hn hkw
    have h1 := hkw "мужск" (by decide)
    have h2' := hkw "men" (by decide)
    have h3 := hkw "male" (by decide)
    have h4 := hkw "женск" (by decide)
    have h5 := hkw "women" (by decide)
    have h6 := hkw "female" (by decide)
    have h7 := hkw "детск" (by decide)
    have h8 := hkw "kid" (by decide)
    have h9 := hkw "child" (by decide)
    have hne : lowerStr pd.name ≠ "" := fun h => hn (lowerStr_eq_empty_iff pd.name |>.mp h)
    simp only [determine_gender, gender_from_name, h2, lowerStr_empty, h1, h2', h3, h4,
      h5, h6, h7, h8, h9, hne, ne_eq, not_true_eq_false, Bool.or_self, Bool.or_false,
      if_false, not_false_eq_true, if_true]
    simp [hne]
  · intro h2 h1
    simp only [determine_gender, gender_from_name, h1, h2]
    decide

/-- Witness for C8 at concrete records. -/
theorem c8_gender_fallback_witness :
    determine_gender { name := "Платье женское" } = some "ЖЕНСКИЙ" ∧
    determine_gender { name := "Сумка" } = some "УНИВЕРСАЛЬНЫЙ (УНИСЕКС)" ∧
    determine_gender { name := "" } = none :=
  ⟨(c8_gender_fallback _).1 rfl rfl,
   (c8_gender_fallback _).2.1 rfl (by decide) (by decide),
   (c8_gender_fallback _).2.2 rfl rfl⟩

/-! ## Claim C10 -/

/-- C10: a record with empty target gender whose lowercased name contains
the Latin substring "women" (and none of the Cyrillic male keywords) is
classified МУЖСКОЙ, because the male-keyword test runs first and "men" is
a substring of "women". -/
theorem c10_women_classified_male (pd : ProductData)
    (ht : pd.target_gender = "")
    (hw : strIn "women" (lowerStr pd.name) = true)
    (hmk : strIn "мужск" (lowerStr pd.name) = false) :
    determine_gender pd = some "МУЖСКОЙ" := by
  have hmen : strIn "men" (lowerStr pd.name) = true :=
    strIn_trans (show strIn "men" "women" = true by decide) hw
  simp only [determine_gender, gender_from_name, ht, lowerStr_empty, hmen,
    Bool.or_true, Bool.true_or, ne_eq, not_true_eq_false, if_false, if_true]

/-- Witness for C10 at a concrete record. -/
theorem c10_women_classified_male_witness :
    determine_gender { name := "women bag" } = some "МУЖСКОЙ" :=
  c10_women_classified_male _ rfl (by decide) (by decide)

/-! ## Claim C9 -/

/-- The per-entry step of apply_user_changes. -/
def applyChangeStep (acc : (String → String) × List (String × String))
    (fv : String × String) : (String → String) × List (String × String) :=
  if (fv.1 = "color" ∨ fv.1 = "product_type" ∨ fv.1 = "size") ∧ fv.2 ≠ "" then
    (fun k => if k = fv.1 then fv.2 else acc.1 k,
     acc.2 ++ [(fv.1, acc.1 fv.1 ++ " → " ++ fv.2)])
  else acc

theorem apply_user_changes_eq_foldl (product_data : String → String)
    (user_changes : List (String × String)) :
    apply_user_changes product_data user_changes =
      if user_changes.isEmpty then (product_data, [])
      else user_changes.foldl applyChangeStep (product_data, []) := rfl

theorem foldl_applyChangeStep_preserves (field : String)
    (user_changes : List (String × String))
    (hch : ∀ fv ∈ user_changes, fv.1 = field →
      ¬((fv.1 = "color" ∨ fv.1 = "product_type" ∨ fv.1 = "size") ∧ fv.2 ≠ "")) :
    ∀ acc, (user_changes.foldl applyChangeStep acc).1 field = acc.1 field := by
  induction user_changes with
  | nil => intro acc; rfl
  | cons fv rest ih =>
    intro acc
    have hrest : ∀ gv ∈ rest, gv.1 = field →
        ¬((gv.1 = "color" ∨ gv.1 = "product_type" ∨ gv.1 = "size") ∧ gv.2 ≠ "") :=
      fun gv hgv => hch gv (List.mem_cons_of_mem _ hgv)
    rw [List.foldl_cons, ih hrest]
    unfold applyChangeStep
    split
    · next hcond =>
      have hne : field ≠ fv.1 := fun he => hch fv (List.mem_cons_self _ _) he.symm hcond
      simp [hne]
    · rfl

/-- C9: apply_user_changes leaves every field outside
{color, product_type, size} unchanged, and leaves even those fields
unchanged when every override supplied for them is empty. -/
theorem c9_user_changes_frame (product_data : String → String)
    (user_changes : List (String × String)) (field : String) :
    (field ∉ (["color", "product_type", "size"] : List String) →
      (apply_user_changes product_data user_changes).1 field = product_data field) ∧
    ((∀ v, (field, v) ∈ user_changes → v = "") →
      (apply_user_changes product_data user_changes).1 field = product_data field) := by
  constructor
  · intro hout
    rw [apply_user_changes_eq_foldl]
    split
    · rfl
    · exact foldl_applyChangeStep_preserves field user_changes
        (fun fv _ hf => by
          rintro ⟨hmem, _⟩
          exact hout (by rw [← hf]; simpa using hmem)) (product_data, [])
  · intro hempty
    rw [apply_user_changes_eq_foldl]
    split
    · rfl
    · exact foldl_applyChangeStep_preserves field user_changes
        (fun fv hfv hf => by
          rintro ⟨_, hne⟩
          exact hne (hempty fv.2 (by rw [← hf]; simpa using hfv))) (product_data, [])

/-- Witness for C9: a frame field and an empty override. -/
theorem c9_user_changes_frame_witness :
    (apply_user_changes (fun _ => "x") [("color", "")]).1 "brand_nk" = "x" ∧
    (apply_user_changes (fun _ => "x") [("color", "")]).1 "color" = "x" :=
  ⟨(c9_user_changes_frame _ _ _).1 (by decide),
   (c9_user_changes_frame _ _ _).2 (by
    intro v hv
    have := List.mem_singleton.mp hv
    exact (Prod.mk.injEq .. ▸ this).2)⟩

/-! ## Claim C6 -/

/-- C6: for a 10-digit tariff code, the card's tnved field is the full
code exactly when the resolved category is 214943 or 215009, and the
4-digit prefix for every other resolved category. -/
theorem c6_full_tnved_categories (resolveByType : String → String → Nat)
    (resolveByTnved : String → Nat) (defaultCat : Nat) (pd : ProductData)
    (cat : Nat) (h10 : pyLen pd.tnved = 10) :
    (cat = 214943 ∨ cat = 215009 →
      (create_card_data resolveByType resolveByTnved defaultCat pd (some cat)).tnved =
        pd.tnved) ∧
    (¬(cat = 214943 ∨ cat = 215009) →
      (create_card_data resolveByType resolveByTnved defaultCat pd (some cat)).tnved =
        takeStr 4 pd.tnved) := by
  have hlen : pyLen pd.tnved > 4 := by omega
  constructor
  · intro hc
    simp only [create_card_data]
    rw [if_neg (not_not_intro hc)]
  · intro hc
    simp only [create_card_data]
    rw [if_pos hc, if_pos hlen]

/-- Witness for C6: both directions at tariff 6204631800. -/
theorem c6_full_tnved_categories_witness :
    (create_card_data (fun _ _ => 0) (fun _ => 0) 0
      { tnved := "6204631800" } (some 215009)).tnved = "6204631800" ∧
    (create_card_data (fun _ _ => 0) (fun _ => 0) 0
      { tnved := "6204631800" } (some 30683)).tnved = takeStr 4 "6204631800" :=
  ⟨(c6_full_tnved_categories _ _ _ _ _ (by decide)).1 (Or.inr rfl),
   (c6_full_tnved_categories _ _ _ _ _ (by decide)).2 (by decide)⟩

/-! ## Claim C3 -/

/-- C3 counterexample: a record with non-empty name and every optional
field empty produces a card whose attribute ids are country, full name,
trademark, regulation and gender — the tariff-group attribute (3959) is
absent, so the card does not consist of exactly the five mandatory
attributes the claim lists. -/
theorem c3_empty_card_counterexample :
    ((create_card_data (fun _ _ => 0) (fun _ => 0) 31326
        { name := "Платье" } none).good_attrs.map (fun a => a.attr_id) =
      [2630, 2478, 2504, 13836, 14013]) ∧
    3959 ∉ ((create_card_data (fun _ _ => 0) (fun _ => 0) 31326
        { name := "Платье" } none).good_attrs.map (fun a => a.attr_id)) := by
  constructor
  · decide
  · decide

theorem gender_from_name_some_of_ne (n : String) (hn : n ≠ "") :
    ∃ g, gender_from_name n = some g := by
  unfold gender_from_name
  split_ifs <;> first | exact ⟨_, rfl⟩ | simp_all

/-- C3 amended: with every optional field empty, the card contains exactly
the country, full-name, trademark and regulation attributes, plus a gender
attribute exactly when the name is non-empty; in particular the
tariff-group attribute is never among them. -/
theorem c3_empty_card_amended (resolveByType : String → String → Nat)
    (resolveByTnved : String → Nat) (defaultCat : Nat) (pd : ProductData)
    (catId? : Option Nat)
    (h1 : pd.tnved = "") (h2 : pd.product_type = "") (h3 : pd.color = "")
    (h4 : pd.size = "") (h5 : pd.composition = "") (h6 : pd.article = "")
    (h7 : pd.permit_docs = "") (h8 : pd.target_gender = "") :
    (create_card_data resolveByType resolveByTnved defaultCat pd catId?).good_attrs.map
        (fun a => a.attr_id) =
      [2630, 2478, 2504, 13836] ++ (if pd.name = "" then [] else [14013]) := by
  have hgender : determine_gender pd =
      gender_from_name (lowerStr pd.name) := by
    simp only [determine_gender, h8, lowerStr_empty, ne_eq, not_true_eq_false, if_false]
  by_cases hn : pd.name = ""
  · simp only [create_card_data, h1, h2, h3, h4, h5, h6, h7, hgender, hn,
      lowerStr_empty, gender_from_name]
    simp
    decide
  · obtain ⟨g, hg⟩ := gender_from_name_some_of_ne (lowerStr pd.name)
      (fun h => hn (lowerStr_eq_empty_iff pd.name |>.mp h))
    simp only [create_card_data, h1, h2, h3, h4, h5, h6, h7, hgender, hg, if_neg hn]
    simp
/-- Witness for C3's amended claim at a concrete record. -/
theorem c3_empty_card_amended_witness :
    (create_card_data (fun _ _ => 0) (fun _ => 0) 0
        { name := "Платье" } none).good_attrs.map (fun a => a.attr_id) =
      [2630, 2478, 2504, 13836] ++ (if ("Платье" : String) = "" then [] else [14013]) :=
  c3_empty_card_amended _ _ _ _ _ rfl rfl rfl rfl rfl rfl rfl rfl

/-! ## Claim C4 -/

theorem cleanField_no_sentinel (s : String) :
    cleanField s ≠ "None" ∧ cleanField s ≠ "nan" ∧ cleanField s ≠ "Нет" := by
  unfold cleanField
  split_ifs with h
  · exact ⟨by decide, by decide, by decide⟩
  · push_neg at h
    exact ⟨h.1, h.2.2.1, h.2.2.2⟩

theorem validate_step_preserves_strings (colorPreset : List String)
    (kindPreset : Nat → List String) (resolveTnved : String → Nat)
    (d : ExtractedData) :
    (validate_step colorPreset kindPreset resolveTnved d).name = d.name ∧
    (validate_step colorPreset kindPreset resolveTnved d).article = d.article ∧
    (validate_step colorPreset kindPreset resolveTnved d).composition = d.composition ∧
    (validate_step colorPreset kindPreset resolveTnved d).permit_docs = d.permit_docs ∧
    (validate_step colorPreset kindPreset resolveTnved d).color = d.color ∧
    (validate_step colorPreset kindPreset resolveTnved d).size = d.size ∧
    (validate_step colorPreset kindPreset resolveTnved d).product_type = d.product_type ∧
    (validate_step colorPreset kindPreset resolveTnved d).tnved = d.tnved ∧
    (validate_step colorPreset kindPreset resolveTnved d).size_type = d.size_type ∧
    (validate_step colorPreset kindPreset resolveTnved d).target_gender = d.target_gender := by
  have hcolor : ∀ e : ExtractedData,
      (validate_color_step colorPreset e).name = e.name ∧
      (validate_color_step colorPreset e).article = e.article ∧
      (validate_color_step colorPreset e).composition = e.composition ∧
      (validate_color_step colorPreset e).permit_docs = e.permit_docs ∧
      (validate_color_step colorPreset e).color = e.color ∧
      (validate_color_step colorPreset e).size = e.size ∧
      (validate_color_step colorPreset e).product_type = e.product_type ∧
      (validate_color_step colorPreset e).tnved = e.tnved ∧
      (validate_color_step colorPreset e).size_type = e.size_type ∧
      (validate_color_step colorPreset e).target_gender = e.target_gender := by
    intro e
    unfold validate_color_step
    split_ifs <;> exact ⟨rfl, rfl, rfl, rfl, rfl, rfl, rfl, rfl, rfl, rfl⟩
  have hkind : ∀ e : ExtractedData,
      (validate_kind_step kindPreset resolveTnved e).name = e.name ∧
      (validate_kind_step kindPreset resolveTnved e).article = e.article ∧
      (validate_kind_step kindPreset resolveTnved e).composition = e.composition ∧
      (validate_kind_step kindPreset resolveTnved e).permit_docs = e.permit_docs ∧
      (validate_kind_step kindPreset resolveTnved e).color = e.color ∧
      (validate_kind_step kindPreset resolveTnved e).size = e.size ∧
      (validate_kind_step kindPreset resolveTnved e).product_type = e.product_type ∧
      (validate_kind_step kindPreset resolveTnved e).tnved = e.tnved ∧
      (validate_kind_step kindPreset resolveTnved e).size_type = e.size_type ∧
      (validate_kind_step kindPreset resolveTnved e).target_gender = e.target_gender := by
    intro e
    unfold validate_kind_step
    split_ifs <;> exact ⟨rfl, rfl, rfl, rfl, rfl, rfl, rfl, rfl, rfl, rfl⟩
  obtain ⟨k1, k2, k3, k4, k5, k6, k7, k8, k9, k10⟩ :=
    hkind (validate_color_step colorPreset d)
  obtain ⟨c1, c2, c3, c4, c5, c6, c7, c8, c9, c10⟩ := hcolor d
  unfold validate_step
  rw [k1, k2, k3, k4, k5, k6, k7, k8, k9, k10]
  exact ⟨c1, c2, c3, c4, c5, c6, c7, c8, c9, c10⟩

/-- C4 counterexample: a record built from an item whose brand attribute
is the boolean False and whose name is a single space ends up with
brand_nk holding the sentinel token Нет (the cleanup list does not cover
brand_nk) and an untrimmed single-space name, contradicting the claimed
invariant.  The configured attribute names, absent from the sources, are
instantiated with their spec descriptions. -/
theorem c4_sentinel_counterexample :
    (extract_item_data_with_inheritance
      ⟨"Состав", "Разрешительные документы", "Бренд НК", "Вид товара", "Цвет",
        "Размер", ["цвет"], ["размер"], [214943, 215009], 13933⟩
      [] (fun _ => []) (fun _ => 0)
      { meta_type := "product", name := " ",
        attributes := [{ name := "Бренд НК", value := AVal.vbool false }] }
      none).brand_nk = "Нет" ∧
    (extract_item_data_with_inheritance
      ⟨"Состав", "Разрешительные документы", "Бренд НК", "Вид товара", "Цвет",
        "Размер", ["цвет"], ["размер"], [214943, 215009], 13933⟩
      [] (fun _ => []) (fun _ => 0)
      { meta_type := "product", name := " ",
        attributes := [{ name := "Бренд НК", value := AVal.vbool false }] }
      none).name = " " := by
  constructor
  · decide
  · decide

/-- C4 amended: for every configuration, preset and input, the ten fields
that pass through the final sentinel cleanup (name, article, composition,
permit_docs, color, size, product_type, tnved, size_type, target_gender)
never hold one of the sentinel tokens None/nan/Нет; brand_nk is not
cleaned, and fields are not trimmed. -/
theorem c4_cleaned_fields_amended (cfg : AppConfig) (colorPreset : List String)
    (kindPreset : Nat → List String) (resolveTnved : String → Nat)
    (item : MSItem) (parentProduct : Option MSItem) :
    ∀ s ∈ [(extract_item_data_with_inheritance cfg colorPreset kindPreset
          resolveTnved item parentProduct).name,
        (extract_item_data_with_inheritance cfg colorPreset kindPreset
          resolveTnved item parentProduct).article,
        (extract_item_data_with_inheritance cfg colorPreset kindPreset
          resolveTnved item parentProduct).composition,
        (extract_item_data_with_inheritance cfg colorPreset kindPreset
          resolveTnved item parentProduct).permit_docs,
        (extract_item_data_with_inheritance cfg colorPreset kindPreset
          resolveTnved item parentProduct).color,
        (extract_item_data_with_inheritance cfg colorPreset kindPreset
          resolveTnved item parentProduct).size,
        (extract_item_data_with_inheritance cfg colorPreset kindPreset
          resolveTnved item parentProduct).product_type,
        (extract_item_data_with_inheritance cfg colorPreset kindPreset
          resolveTnved item parentProduct).tnved,
        (extract_item_data_with_inheritance cfg colorPreset kindPreset
          resolveTnved item parentProduct).size_type,
        (extract_item_data_with_inheritance cfg colorPreset kindPreset
          resolveTnved item parentProduct).target_gender],
      s ≠ "None" ∧ s ≠ "nan" ∧ s ≠ "Нет" := by
  intro s hs
  obtain ⟨e1, e2, e3, e4, e5, e6, e7, e8, e9, e10⟩ :=
    validate_step_preserves_strings colorPreset kindPreset resolveTnved
      (clean_data (extract_raw cfg item parentProduct))
  simp only [extract_item_data_with_inheritance] at hs
  rw [e1, e2, e3, e4, e5, e6, e7, e8, e9, e10] at hs
  simp only [List.mem_cons, List.not_mem_nil, or_false] at hs
  rcases hs with h | h | h | h | h | h | h | h | h | h <;>
    · subst h; exact cleanField_no_sentinel _

/-- Witness for C4's amended claim at a concrete record and field. -/
theorem c4_cleaned_fields_amended_witness :
    (extract_item_data_with_inheritance
      ⟨"Состав", "Разрешительные документы", "Бренд НК", "Вид товара", "Цвет",
        "Размер", ["цвет"], ["размер"], [214943, 215009], 13933⟩
      [] (fun _ => []) (fun _ => 0)
      { meta_type := "product", name := "Сумка" } none).name ≠ "None" ∧
    (extract_item_data_with_inheritance
      ⟨"Состав", "Разрешительные документы", "Бренд НК", "Вид товара", "Цвет",
        "Размер", ["цвет"], ["размер"], [214943, 215009], 13933⟩
      [] (fun _ => []) (fun _ => 0)
      { meta_type := "product", name := "Сумка" } none).name ≠ "nan" ∧
    (extract_item_data_with_inheritance
      ⟨"Состав", "Разрешительные документы", "Бренд НК", "Вид товара", "Цвет",
        "Размер", ["цвет"], ["размер"], [214943, 215009], 13933⟩
      [] (fun _ => []) (fun _ => 0)
      { meta_type := "product", name := "Сумка" } none).name ≠ "Нет" :=
  c4_cleaned_fields_amended _ _ _ _ _ _ _ (List.mem_cons_self _ _)

/-! ## Claim C1 -/

theorem first_normal_or_any_mem (lowPriority : List Nat) (cats : CatDict) (r : Nat)
    (h : first_normal_or_any lowPriority cats = some r) : ∃ p ∈ cats, p.1 = r := by
  cases hf1 : cats.find? (fun p =>
      !(lowPriority.contains p.1) && !(INACTIVE_CATEGORIES.contains p.1)) with
  | some p =>
    simp only [first_normal_or_any, hf1, Option.some.injEq] at h
    exact ⟨p, List.mem_of_find?_eq_some hf1, h⟩
  | none =>
    cases hf2 : cats.find? (fun p => !(INACTIVE_CATEGORIES.contains p.1)) with
    | some p =>
      simp only [first_normal_or_any, hf1, hf2, Option.some.injEq] at h
      exact ⟨p, List.mem_of_find?_eq_some hf2, h⟩
    | none =>
      cases cats with
      | nil => simp [first_normal_or_any, hf1, hf2] at h
      | cons p rest =>
        simp only [first_normal_or_any, hf1, hf2, Option.some.injEq] at h
        exact ⟨p, List.mem_cons_self _ _, h⟩

theorem scored_of_mem (active : CatDict) (qt : List String)
    (t : Nat × String × ℚ) (ht : t ∈ scored_of active qt) :
    ∃ p ∈ active, p.1 = t.1 := by
  obtain ⟨p, hp, hpt⟩ := List.mem_filterMap.mp ht
  refine ⟨p, hp, ?_⟩
  by_cases hsc : 0 < calculate_match_score qt p.2 p.1
  · simp only [if_pos hsc] at hpt
    cases hpt
    rfl
  · simp only [if_neg hsc] at hpt
    cases hpt

theorem choose_from_active_mem (lowPriority : List Nat) (active : CatDict)
    (product_type : Option String) (r : Nat)
    (h : choose_from_active lowPriority active product_type = some r) :
    ∃ p ∈ active, p.1 = r := by
  cases product_type with
  | none => exact first_normal_or_any_mem _ _ _ h
  | some pt =>
    by_cases hpt : pt = ""
    · simp only [choose_from_active, if_pos hpt] at h
      exact first_normal_or_any_mem _ _ _ h
    · cases hf : (sorted_of active (tokenize pt)).find?
          (fun t => !(lowPriority.contains t.1) && decide (0 < t.2.2)) with
      | some t =>
        simp only [choose_from_active, if_neg hpt, hf, Option.some.injEq] at h
        have hts : t ∈ sorted_of active (tokenize pt) := List.mem_of_find?_eq_some hf
        have htm : t ∈ scored_of active (tokenize pt) :=
          (mem_sortByLe _ _ _).mp hts
        obtain ⟨p, hp, hpt1⟩ := scored_of_mem _ _ _ htm
        exact ⟨p, hp, by rw [hpt1, h]⟩
      | none =>
        simp only [choose_from_active, if_neg hpt, hf] at h
        cases hs : sorted_of active (tokenize pt) with
        | nil =>
          rw [hs] at h
          exact first_normal_or_any_mem _ _ _ h
        | cons t rest =>
          by_cases hsc : 0 < t.2.2
          · rw [hs] at h
            simp only [if_pos hsc, Option.some.injEq] at h
            have hts : t ∈ sorted_of active (tokenize pt) := by
              rw [hs]; exact List.mem_cons_self _ _
            have htm : t ∈ scored_of active (tokenize pt) :=
              (mem_sortByLe _ _ _).mp hts
            obtain ⟨p, hp, hpt1⟩ := scored_of_mem _ _ _ htm
            exact ⟨p, hp, by rw [hpt1, h]⟩
          · rw [hs] at h
            simp only [if_neg hsc] at h
            exact first_normal_or_any_mem _ _ _ h

theorem active_of_not_inactive (cats : CatDict)
    (hact : ∃ p ∈ cats, p.1 ∉ INACTIVE_CATEGORIES) :
    ∀ q ∈ active_of cats, q.1 ∉ INACTIVE_CATEGORIES := by
  obtain ⟨p, hp, hpa⟩ := hact
  have hfil : p ∈ cats.filter (fun p => !(INACTIVE_CATEGORIES.contains p.1)) :=
    List.mem_filter.mpr ⟨hp, by simpa using hpa⟩
  have hne : ¬ (cats.filter (fun p => !(INACTIVE_CATEGORIES.contains p.1))).isEmpty := by
    intro he
    rw [List.isEmpty_iff] at he
    rw [he] at hfil
    exact absurd hfil (List.not_mem_nil _)
  intro q hq
  unfold active_of at hq
  rw [if_neg hne] at hq
  have := (List.mem_filter.mp hq).2
  simpa using this

/-- C1: whenever the mapping-table candidate set for a tariff code
contains at least one category id outside the hardcoded inactive
deny-list, choose_category never returns an inactive category id,
whatever the product-kind argument. -/
theorem c1_never_returns_inactive (M : List (String × CatDict))
    (lowPriority : List Nat) (tnved : String) (product_type : Option String)
    (r : Nat)
    (hact : ∃ p ∈ mapping_for M tnved, p.1 ∉ INACTIVE_CATEGORIES)
    (hres : choose_category M lowPriority tnved product_type = some r) :
    r ∉ INACTIVE_CATEGORIES := by
  unfold choose_category at hres
  by_cases hemp : (mapping_for M tnved).isEmpty
  · rw [if_pos hemp] at hres
    exact absurd hres (by simp)
  · rw [if_neg hemp] at hres
    obtain ⟨q, hq, hq1⟩ := choose_from_active_mem _ _ _ _ hres
    have := active_of_not_inactive (mapping_for M tnved) hact q hq
    rwa [hq1] at this

/-- Witness for C1 at a concrete table: tariff 6204631800 resolves through
the 4-digit group to the active category 30683. -/
theorem c1_never_returns_inactive_witness :
    (∃ p ∈ mapping_for [("6204", [(30683, "Брюки")])] "6204631800",
      p.1 ∉ INACTIVE_CATEGORIES) ∧
    (30683 : Nat) ∉ INACTIVE_CATEGORIES :=
  ⟨by decide,
   c1_never_returns_inactive [("6204", [(30683, "Брюки")])] [] "6204631800" none
     30683 (by decide) (by decide)⟩
